import Mathlib

/-!
Shallow embedding of `src/supafastllm/docker/fastapi/main.py` (the single
source file of the repository).

The module loads two environment variables at import time, configures a
FastAPI app with four routes, and guards two of them with a JWT-verifying
dependency.  Pure pieces of the Python file become Lean functions; the
HTTP layer is modelled as a total dispatch function from requests to
responses; the third-party pieces the source calls into are modelled
symbolically:

* `jose.jwt.decode(token, key, algorithms=['HS256'])` is modelled over a
  symbolic token type: a signature value records the secret, the header
  algorithm and the signed claims (constructor injectivity plays the role
  of MAC unforgeability), and decoding succeeds exactly when the header
  algorithm is in the allowed list and the signature was produced with the
  given key over this token's header and claims.  Any failure raises
  `JWTError`, collapsed here into one error value, as the source catches
  the whole class.
* `fastapi.security.HTTPBearer()` (with its default `auto_error=True`)
  rejects a request with no `Authorization` header with status 403 and
  body `{"detail": "Not authenticated"}` before the dependency body runs;
  with a `Bearer` credential it passes the credential string through.
* Python `str.replace` (used by the root handler) is embedded as
  `replaceAll` on character lists: the left-to-right, non-overlapping
  replacement of every occurrence of a non-empty pattern.
-/

namespace SupaFast

/-- Algorithm names that can appear in a JWT header.  The source only ever
allows HS256; a second constructor represents any other algorithm. -/
inductive Alg where
  | HS256
  | HS512
deriving DecidableEq, Repr

/-- A decoded claim set: the payload mapping of a JWT.  The server never
inspects claim contents, so flat string values are a sufficient carrier. -/
abbrev Claims := List (String × String)

/-- Symbolic MAC value: `Sig.mk secret alg claims` stands for the HMAC tag
computed with `secret` over the encoded header (carrying `alg`) and payload
(carrying `claims`).  Injectivity of the constructor models that tags made
with different secrets, algorithms or payloads never coincide. -/
structure Sig where
  secret : String
  alg : Alg
  claims : Claims
deriving DecidableEq, Repr

/-- A structurally well-formed JWT: header algorithm, payload, signature. -/
structure Token where
  alg : Alg
  claims : Claims
  sig : Sig
deriving DecidableEq, Repr

/-- Produce the token that signing `claims` with `secret` under `alg`
yields: the signature is the symbolic MAC over the token's own contents. -/
def signToken (secret : String) (alg : Alg) (claims : Claims) : Token :=
  ⟨alg, claims, ⟨secret, alg, claims⟩⟩

/-- A bearer credential string: either it parses as a JWT or it is some
malformed string. -/
inductive Cred where
  | malformed (s : String)
  | token (t : Token)
deriving DecidableEq, Repr

/-- The `Authorization` header of a request, as far as the app observes it:
absent, or carrying a `Bearer` credential. -/
inductive AuthHeader where
  | missing
  | bearer (cred : Cred)
deriving DecidableEq, Repr

/-- Response bodies produced by the app: a flat JSON object (every JSON
body in the source is a string-to-string object) or an HTML document. -/
inductive Body where
  | json (fields : List (String × String))
  | html (content : List Char)
deriving DecidableEq, Repr

/-- An HTTP response: status code and body. -/
structure Response where
  status : Nat
  body : Body
deriving DecidableEq, Repr

/-- The `jose.JWTError` exception class, collapsed to one value: the source
catches the whole class and never looks inside. -/
inductive JWTError where
  | invalid
deriving DecidableEq, Repr

/-- The signature-and-algorithm layer of `jose.jwt.decode(cred, key,
algorithms=algs)`: a malformed string fails; a token passes exactly when
its header algorithm is allowed and its signature is the MAC made with
`key` over this token's header and claims.  Any failure raises `JWTError`.
On top of this layer the library's default options also validate the
registered claims against the wall clock; that part is modelled by
`claimsValid` and `jwtDecodeAt`, and statements that depend on it are made
against the clock-aware `handle_at`.  This layer alone is used only for
statements insensitive to the clock: rejections (the full decode rejects
strictly more) and properties conditioned on the verifier succeeding. -/
def jwtDecode (cred : Cred) (key : String) (algs : List Alg) :
    Except JWTError Claims :=
  match cred with
  | .malformed _ => .error .invalid
  | .token t =>
      if t.alg ∈ algs ∧ t.sig = ⟨key, t.alg, t.claims⟩ then .ok t.claims
      else .error .invalid

/-- Fixed 401 response raised by `verify_jwt` on any `JWTError`. -/
def resp401 : Response :=
  ⟨401, .json [("detail", "Invalid authentication token")]⟩

/-- Fixed 403 response raised by `HTTPBearer` when the `Authorization`
header is absent. -/
def resp403 : Response :=
  ⟨403, .json [("detail", "Not authenticated")]⟩

/-- The `verify_jwt` dependency composed with its own `security = HTTPBearer()`
dependency: a missing header is rejected by `HTTPBearer` with the fixed 403;
otherwise the credential is decoded with `JWT_SECRET` under `['HS256']`, and
any `JWTError` becomes the fixed 401 `HTTPException`. -/
def verify_jwt (secret : String) (auth : AuthHeader) :
    Except Response Claims :=
  match auth with
  | .missing => .error resp403
  | .bearer cred =>
      match jwtDecode cred secret [Alg.HS256] with
      | .ok payload => .ok payload
      | .error _ => .error resp401

/-- `health_check`: returns `{"status": "healthy"}`. -/
def health_check : Response :=
  ⟨200, .json [("status", "healthy")]⟩

/-- `protected_route`: runs `verify_jwt`; on success returns the fixed
access-granted payload, otherwise the dependency's error response. -/
def protected_route (secret : String) (auth : AuthHeader) : Response :=
  match verify_jwt secret auth with
  | .error e => e
  | .ok _ => ⟨200, .json [("message", "Access granted to protected API route")]⟩

/-- `hello_world`: returns the fixed dict literal. -/
def hello_world : Claims :=
  [("message", "Hello, World!"), ("status", "success")]

/-- Outcome of evaluating a Python call: a value, or a raised exception
carrying `str(e)`. -/
inductive PyResult (α : Type) where
  | ok (a : α)
  | exc (msg : String)
deriving DecidableEq, Repr

/-- Evaluating `hello_world()`: its body is a single `return` of a dict
literal of string literals, whose evaluation returns normally. -/
def hello_world_eval : PyResult Claims :=
  .ok hello_world

/-- `run_hello_world`: after `verify_jwt`, runs `hello_world()` inside
`try/except`; a normal result is returned as a 200 JSON response, an
exception becomes a 500 with the message embedded. -/
def run_hello_world (secret : String) (auth : AuthHeader) : Response :=
  match verify_jwt secret auth with
  | .error e => e
  | .ok _ =>
      match hello_world_eval with
      | .ok result => ⟨200, .json result⟩
      | .exc msg =>
          ⟨500, .json [("detail", "Error executing Python script: " ++ msg)]⟩

/-- Fuelled worker for `replaceAll`: at each position, if the pattern is a
prefix of the remaining input, emit the replacement and skip the matched
characters, else keep one character and continue.  One unit of fuel is
spent per step, and a step consumes at least one input character, so fuel
equal to the input length suffices. -/
def replaceAllFuel (pat rep : List Char) : Nat → List Char → List Char
  | _, [] => []
  | 0, t => t
  | fuel + 1, c :: rest =>
      if pat.isPrefixOf (c :: rest) then
        rep ++ replaceAllFuel pat rep fuel (rest.drop (pat.length - 1))
      else
        c :: replaceAllFuel pat rep fuel rest

/-- Embedding of Python `str.replace` for a non-empty pattern (the source
only ever calls it with the fixed ten-character marker): replace every
occurrence of `pat` in `t` by `rep`, scanning left to right without
overlap. -/
def replaceAll (pat rep t : List Char) : List Char :=
  replaceAllFuel pat rep t.length t

/-- The literal searched for by the root handler: `content=""`. -/
def marker : List Char :=
  String.toList "content=\"\""

/-- The literal the root handler writes in its place:
`content="<ANON_KEY>"`. -/
def keyRep (key : String) : List Char :=
  String.toList ("content=\"" ++ key ++ "\"")

/-- Body built by the root handler from the template file's content:
`html_content.replace('content=""', f'content="{ANON_KEY}"')`. -/
def rootBody (key : String) (tmpl : List Char) : List Char :=
  replaceAll marker (keyRep key) tmpl

/-- The process-wide immutable data the handlers read: the two environment
secrets bound at import time and the filesystem contents the app serves
(`public/index.html` and the files under the `/static` mount). -/
structure World where
  secret : String
  anonKey : String
  indexHtml : List Char
  staticFiles : String → Option (List Char)

/-- `root`: reads `public/index.html`, substitutes the anon key for the
empty-content marker, and returns the HTML with status 200. -/
def root (w : World) : Response :=
  ⟨200, .html (rootBody w.anonKey w.indexHtml)⟩

/-- HTTP methods used by the app's routes. -/
inductive Method where
  | GET
  | POST
deriving DecidableEq, BEq, Repr

/-- An inbound HTTP request, as far as the app observes it. -/
structure Request where
  method : Method
  path : String
  auth : AuthHeader

/-- The route table of the FastAPI app: the four declared routes, the
`/static` mount serving files unmodified, and the framework's 404 for
anything else. -/
def handle (w : World) (r : Request) : Response :=
  if r.method == .GET && r.path == "/api/v1/health" then
    health_check
  else if r.method == .GET && r.path == "/" then
    root w
  else if r.method == .GET && r.path == "/api/v1/protected" then
    protected_route w.secret r.auth
  else if r.method == .POST && r.path == "/api/v1/hello" then
    run_hello_world w.secret r.auth
  else if r.method == .GET && String.isPrefixOf "/static/" r.path then
    match w.staticFiles r.path with
    | some content => ⟨200, .html content⟩
    | none => ⟨404, .json [("detail", "Not Found")]⟩
  else
    ⟨404, .json [("detail", "Not Found")]⟩

/-- Model of `os.getenv`: look a name up in the process environment. -/
def getenv (env : List (String × String)) (k : String) : Option String :=
  (env.find? (fun p => p.1 == k)).map (fun p => p.2)

/-- Python truthiness test `not x` for `x` an `os.getenv` result: true
exactly when the variable is absent (`None`) or the empty string. -/
def falsy : Option String → Bool
  | none => true
  | some s => s == ""

/-- The two configuration values bound at import time. -/
structure Config where
  jwtSecret : String
  anonKey : String
deriving DecidableEq, Repr

/-- Module import: read `JWT_SECRET`, raise `ValueError` if falsy, then
read `SUPABASE_ANON_KEY`, raise `ValueError` if falsy; otherwise both
globals are bound and the app object is built. -/
def loadConfig (env : List (String × String)) : Except String Config :=
  let jwtSecret := getenv env "JWT_SECRET"
  if falsy jwtSecret then
    .error "JWT_SECRET environment variable is required"
  else
    let anonKey := getenv env "SUPABASE_ANON_KEY"
    if falsy anonKey then
      .error "SUPABASE_ANON_KEY environment variable is required"
    else
      .ok ⟨jwtSecret.getD "", anonKey.getD ""⟩

/-- The whole process: if startup fails no request is ever answered
(`none`); otherwise every request is dispatched through the route table
with the loaded configuration. -/
def serve (env : List (String × String)) (indexHtml : List Char)
    (staticFiles : String → Option (List Char)) (r : Request) :
    Option Response :=
  match loadConfig env with
  | .error _ => none
  | .ok cfg => some (handle ⟨cfg.jwtSecret, cfg.anonKey, indexHtml, staticFiles⟩ r)

/-- Look a key up in a claim set, as `claims[k]` access by the library. -/
def claimLookup (claims : Claims) (k : String) : Option String :=
  (claims.find? (fun p => p.1 == k)).map (fun p => p.2)

/-- Decimal-digit accumulator for `pyInt?`. -/
def digitsAux : List Char → Nat → Option Nat
  | [], acc => some acc
  | c :: ds, acc =>
      if '0' ≤ c ∧ c ≤ '9' then digitsAux ds (acc * 10 + (c.toNat - 48))
      else none

/-- Model of Python `int(...)` on a claim value: an optional sign followed
by at least one decimal digit.  (Python additionally tolerates surrounding
whitespace and digit-group underscores; no value in this development
carries those.) -/
def pyInt? (s : String) : Option Int :=
  match s.toList with
  | [] => none
  | '-' :: ds =>
      if ds = [] then none
      else (digitsAux ds 0).map (fun n => -(n : Int))
  | '+' :: ds =>
      if ds = [] then none
      else (digitsAux ds 0).map (fun n => (n : Int))
  | ds => (digitsAux ds 0).map (fun n => (n : Int))

/-- Model of python-jose's default registered-claim validation, run by
`jwt.decode` after the signature check when the app passes no `audience`,
`issuer`, `subject` or `access_token` argument (as this source does), with
the default zero leeway and `now` the wall clock in epoch seconds:

* `iat`, if present, must parse as an integer (no time comparison);
* `nbf`, if present, must parse and satisfy `nbf ≤ now`;
* `exp`, if present, must parse and satisfy `now ≤ exp` (an earlier `exp`
  raises `ExpiredSignatureError`);
* an `aud` claim with no `audience` argument to compare against raises;
* an `at_hash` claim with no `access_token` argument raises.

All these raise subclasses of `JWTError`, so the app's handler turns each
into the same 401.  The integer parse of Python `int(...)` is modelled by
`pyInt?`.  `iss`, `sub` and `jti` need no modelling here: with no
`issuer`/`subject` argument the library only requires `sub`/`jti` to be
strings, which every value of this carrier is. -/
def claimsValid (now : Int) (claims : Claims) : Bool :=
  (match claimLookup claims "iat" with
   | none => true
   | some v => (pyInt? v).isSome) &&
  (match claimLookup claims "nbf" with
   | none => true
   | some v =>
       match pyInt? v with
       | none => false
       | some nbf => decide (nbf ≤ now)) &&
  (match claimLookup claims "exp" with
   | none => true
   | some v =>
       match pyInt? v with
       | none => false
       | some e => decide (now ≤ e)) &&
  (claimLookup claims "aud").isNone &&
  (claimLookup claims "at_hash").isNone

/-- Full model of `jose.jwt.decode(cred, key, algorithms=algs)` at wall
clock `now`: the signature-and-algorithm layer (`jwtDecode`) followed by
the default registered-claim validation (`claimsValid`). -/
def jwtDecodeAt (now : Int) (cred : Cred) (key : String) (algs : List Alg) :
    Except JWTError Claims :=
  match cred with
  | .malformed _ => .error .invalid
  | .token t =>
      if t.alg ∈ algs ∧ t.sig = ⟨key, t.alg, t.claims⟩ then
        if claimsValid now t.claims then .ok t.claims
        else .error .invalid
      else .error .invalid

/-- The `verify_jwt` dependency with the wall clock explicit: as
`verify_jwt`, but decoding through the full clock-aware model. -/
def verify_jwt_at (now : Int) (secret : String) (auth : AuthHeader) :
    Except Response Claims :=
  match auth with
  | .missing => .error resp403
  | .bearer cred =>
      match jwtDecodeAt now cred secret [Alg.HS256] with
      | .ok payload => .ok payload
      | .error _ => .error resp401

/-- `protected_route` with the wall clock explicit. -/
def protected_route_at (now : Int) (secret : String) (auth : AuthHeader) :
    Response :=
  match verify_jwt_at now secret auth with
  | .error e => e
  | .ok _ => ⟨200, .json [("message", "Access granted to protected API route")]⟩

/-- `run_hello_world` with the wall clock explicit. -/
def run_hello_world_at (now : Int) (secret : String) (auth : AuthHeader) :
    Response :=
  match verify_jwt_at now secret auth with
  | .error e => e
  | .ok _ =>
      match hello_world_eval with
      | .ok result => ⟨200, .json result⟩
      | .exc msg =>
          ⟨500, .json [("detail", "Error executing Python script: " ++ msg)]⟩

/-- The route table with the wall clock explicit: identical to `handle`
except that the two protected routes verify through `verify_jwt_at`. -/
def handle_at (now : Int) (w : World) (r : Request) : Response :=
  if r.method == .GET && r.path == "/api/v1/health" then
    health_check
  else if r.method == .GET && r.path == "/" then
    root w
  else if r.method == .GET && r.path == "/api/v1/protected" then
    protected_route_at now w.secret r.auth
  else if r.method == .POST && r.path == "/api/v1/hello" then
    run_hello_world_at now w.secret r.auth
  else if r.method == .GET && String.isPrefixOf "/static/" r.path then
    match w.staticFiles r.path with
    | some content => ⟨200, .html content⟩
    | none => ⟨404, .json [("detail", "Not Found")]⟩
  else
    ⟨404, .json [("detail", "Not Found")]⟩

/-- Explicit-state, explicit-clock translation of one `verify_jwt` call: a
Python handler could in principle mutate the module's globals, so the call
is given the process state and returns the (here unchanged, since the
source assigns to nothing) state alongside its result; the wall clock read
by the library's claim validation is an explicit input. -/
def verify_jwt_call_at (now : Int) (w : World) (auth : AuthHeader) :
    Except Response Claims × World :=
  (verify_jwt_at now w.secret auth, w)

/-- Modelled from the spec: the bodies obtainable from a template by
substituting the anonymous key into exactly one occurrence of the
empty-content marker, leaving every other part of the template unchanged
(one candidate body per occurrence position). -/
def singleSubstOutputs (key : String) (t : List Char) : List (List Char) :=
  (List.range (t.length + 1)).filterMap (fun i =>
    if marker.isPrefixOf (t.drop i) = true then
      some (t.take i ++ (keyRep key ++ t.drop (i + marker.length)))
    else none)

/-- A sample process state used to instantiate universally quantified
results on concrete inputs. -/
def sampleWorld : World :=
  ⟨"server-secret", "anon-key", [], fun _ => none⟩

/-- A template in which the empty-content marker occurs twice. -/
def tmplTwo : List Char :=
  marker ++ (' ' :: marker)

/-! Helper lemmas about `List.isPrefixOf` and `replaceAllFuel`, used to
characterise the root handler's substitution. -/

theorem isPrefixOf_append_self (l s : List Char) :
    l.isPrefixOf (l ++ s) = true := by
  simp [List.isPrefixOf]

theorem isPrefixOf_nil_eq_false (pat : List Char) (hp : pat ≠ []) :
    pat.isPrefixOf [] = false := by
  cases pat with
  | nil => exact absurd rfl hp
  | cons a as => rfl

theorem eq_append_of_isPrefixOf :
    ∀ {pat l : List Char}, pat.isPrefixOf l = true →
      l = pat ++ l.drop pat.length := by
  intro pat
  induction pat with
  | nil => intro l _; rfl
  | cons a as ih =>
    intro l h
    cases l with
    | nil => simp [List.isPrefixOf] at h
    | cons b bs =>
      simp only [List.isPrefixOf, Bool.and_eq_true, beq_iff_eq] at h
      obtain ⟨rfl, hbs⟩ := h
      simpa using ih hbs

theorem replaceAllFuel_no_occ (pat rep : List Char) :
    ∀ (fuel : Nat) (t : List Char), t.length ≤ fuel →
      (∀ i, i ≤ t.length → pat.isPrefixOf (t.drop i) = false) →
      replaceAllFuel pat rep fuel t = t := by
  intro fuel
  induction fuel with
  | zero =>
    intro t ht _
    cases t with
    | nil => rfl
    | cons c rest => simp at ht
  | succ f ih =>
    intro t ht h
    cases t with
    | nil => rfl
    | cons c rest =>
      have h0 : pat.isPrefixOf (c :: rest) = false := by
        simpa using h 0 (Nat.zero_le _)
      have hrest : ∀ i, i ≤ rest.length → pat.isPrefixOf (rest.drop i) = false := by
        intro i hi
        simpa using h (i + 1) (by simpa using hi)
      simp only [replaceAllFuel, h0, Bool.false_eq_true, if_false]
      exact congrArg (c :: ·) (ih rest (by simpa using ht) hrest)

theorem replaceAllFuel_single (pat rep : List Char) (hp : pat ≠ []) :
    ∀ (p s : List Char) (fuel : Nat),
      p.length + pat.length + s.length ≤ fuel →
      (∀ i, i < p.length → pat.isPrefixOf ((p ++ (pat ++ s)).drop i) = false) →
      (∀ i, i ≤ s.length → pat.isPrefixOf (s.drop i) = false) →
      replaceAllFuel pat rep fuel (p ++ (pat ++ s)) = p ++ (rep ++ s) := by
  intro p
  induction p with
  | nil =>
    intro s fuel hf _ h2
    obtain ⟨a, pt, rfl⟩ : ∃ a pt, pat = a :: pt := by
      cases pat with
      | nil => exact absurd rfl hp
      | cons a pt => exact ⟨a, pt, rfl⟩
    cases fuel with
    | zero =>
      simp only [List.length_cons, List.length_nil] at hf
      omega
    | succ f =>
      show replaceAllFuel (a :: pt) rep (f + 1) (a :: (pt ++ s)) = rep ++ s
      have hcond : (a :: pt).isPrefixOf (a :: (pt ++ s)) = true :=
        isPrefixOf_append_self (a :: pt) s
      simp only [replaceAllFuel, hcond, if_true]
      have hdrop : (pt ++ s).drop ((a :: pt).length - 1) = s := by
        simp
      rw [hdrop]
      have hs : replaceAllFuel (a :: pt) rep f s = s := by
        apply replaceAllFuel_no_occ _ _ f s _ h2
        simp only [List.length_cons, List.length_nil] at hf
        omega
      rw [hs]
  | cons c p2 ih =>
    intro s fuel hf h1 h2
    cases fuel with
    | zero =>
      simp only [List.length_cons] at hf
      omega
    | succ f =>
      have h0 : pat.isPrefixOf (c :: (p2 ++ (pat ++ s))) = false := by
        simpa using h1 0 (by simp)
      show replaceAllFuel pat rep (f + 1) (c :: (p2 ++ (pat ++ s))) =
        c :: (p2 ++ (rep ++ s))
      simp only [replaceAllFuel, h0, Bool.false_eq_true, if_false]
      have h1s : ∀ i, i < p2.length →
          pat.isPrefixOf ((p2 ++ (pat ++ s)).drop i) = false := by
        intro i hi
        simpa using h1 (i + 1) (by simpa using hi)
      have hf2 : p2.length + pat.length + s.length ≤ f := by
        simp at hf
        omega
      exact congrArg (c :: ·) (ih s f hf2 h1s h2)

theorem replaceAll_single (pat rep p s : List Char) (hp : pat ≠ [])
    (h1 : ∀ i, i < p.length → pat.isPrefixOf ((p ++ (pat ++ s)).drop i) = false)
    (h2 : ∀ i, i ≤ s.length → pat.isPrefixOf (s.drop i) = false) :
    replaceAll pat rep (p ++ (pat ++ s)) = p ++ (rep ++ s) := by
  apply replaceAllFuel_single pat rep hp p s _ _ h1 h2
  simp only [List.length_append]
  omega

theorem mem_singleSubstOutputs (key : String) (t out : List Char) :
    out ∈ singleSubstOutputs key t ↔
      ∃ p s, t = p ++ (marker ++ s) ∧ out = p ++ (keyRep key ++ s) := by
  constructor
  · intro h
    simp only [singleSubstOutputs, List.mem_filterMap, List.mem_range] at h
    obtain ⟨i, _, hsome⟩ := h
    by_cases hpre : marker.isPrefixOf (t.drop i) = true
    · rw [if_pos hpre] at hsome
      obtain rfl : t.take i ++ (keyRep key ++ t.drop (i + marker.length)) = out := by
        simpa using hsome
      refine ⟨t.take i, t.drop (i + marker.length), ?_, rfl⟩
      calc t = t.take i ++ t.drop i := (List.take_append_drop i t).symm
        _ = t.take i ++ (marker ++ (t.drop i).drop marker.length) := by
              rw [← eq_append_of_isPrefixOf hpre]
        _ = t.take i ++ (marker ++ t.drop (i + marker.length)) := by
              rw [List.drop_drop, Nat.add_comm]
    · rw [if_neg hpre] at hsome
      cases hsome
  · rintro ⟨p, s, rfl, rfl⟩
    simp only [singleSubstOutputs, List.mem_filterMap, List.mem_range]
    refine ⟨p.length, ?_, ?_⟩
    · simp only [List.length_append]
      omega
    · have hdrop : (p ++ (marker ++ s)).drop p.length = marker ++ s :=
        List.drop_left p _
      have hcond : marker.isPrefixOf ((p ++ (marker ++ s)).drop p.length) = true := by
        rw [hdrop]
        exact isPrefixOf_append_self marker s
      rw [if_pos hcond]
      have htake : (p ++ (marker ++ s)).take p.length = p := List.take_left p _
      have hdrop2 : (p ++ (marker ++ s)).drop (p.length + marker.length) = s := by
        rw [show p ++ (marker ++ s) = (p ++ marker) ++ s by simp,
          show p.length + marker.length = (p ++ marker).length by simp]
        exact List.drop_left _ s
      rw [htake, hdrop2]

/-! Reduction of the route table at each declared route: the framework
matches method and path before anything else runs. -/

theorem handle_health (w : World) (auth : AuthHeader) :
    handle w ⟨.GET, "/api/v1/health", auth⟩ = health_check := rfl

theorem handle_root (w : World) (auth : AuthHeader) :
    handle w ⟨.GET, "/", auth⟩ = root w := rfl

theorem handle_protected (w : World) (auth : AuthHeader) :
    handle w ⟨.GET, "/api/v1/protected", auth⟩ = protected_route w.secret auth := rfl

theorem handle_hello (w : World) (auth : AuthHeader) :
    handle w ⟨.POST, "/api/v1/hello", auth⟩ = run_hello_world w.secret auth := rfl

/-! Outcomes of the `verify_jwt` dependency. -/

theorem verify_jwt_malformed (secret s : String) :
    verify_jwt secret (.bearer (.malformed s)) = .error resp401 := rfl

theorem verify_jwt_missing (secret : String) :
    verify_jwt secret .missing = .error resp403 := rfl

theorem verify_jwt_wrong_secret (secret s2 : String) (alg : Alg)
    (claims : Claims) (h : s2 ≠ secret) :
    verify_jwt secret (.bearer (.token (signToken s2 alg claims))) =
      .error resp401 := by
  simp [verify_jwt, jwtDecode, signToken, Sig.mk.injEq, h]

theorem verify_jwt_cases (secret : String) (auth : AuthHeader) :
    (∃ c, verify_jwt secret auth = .ok c) ∨
      verify_jwt secret auth = .error resp401 ∨
      verify_jwt secret auth = .error resp403 := by
  cases auth with
  | missing => exact Or.inr (Or.inr rfl)
  | bearer cred =>
      cases h : jwtDecode cred secret [Alg.HS256] with
      | ok c => exact Or.inl ⟨c, by simp [verify_jwt, h]⟩
      | error e => exact Or.inr (Or.inl (by simp [verify_jwt, h]))

theorem claimLookup_eq_none (claims : Claims) (k : String)
    (h : ∀ kv ∈ claims, kv.1 ≠ k) : claimLookup claims k = none := by
  have hf : List.find? (fun p => p.1 == k) claims = none := by
    rw [List.find?_eq_none]
    intro kv hkv
    simpa using h kv hkv
  simp [claimLookup, hf]

theorem claimsValid_of_no_registered (now : Int) (claims : Claims)
    (h : ∀ kv ∈ claims,
      kv.1 ∉ (["iat", "nbf", "exp", "aud", "at_hash"] : List String)) :
    claimsValid now claims = true := by
  have hl : ∀ k ∈ (["iat", "nbf", "exp", "aud", "at_hash"] : List String),
      claimLookup claims k = none := by
    intro k hk
    apply claimLookup_eq_none
    intro kv hkv hek
    exact h kv hkv (by rw [hek]; exact hk)
  simp [claimsValid, hl "iat" (by simp), hl "nbf" (by simp),
    hl "exp" (by simp), hl "aud" (by simp), hl "at_hash" (by simp)]

theorem verify_jwt_at_ok (now : Int) (secret : String) (claims : Claims)
    (hv : claimsValid now claims = true) :
    verify_jwt_at now secret
        (.bearer (.token (signToken secret .HS256 claims))) = .ok claims := by
  simp [verify_jwt_at, jwtDecodeAt, signToken, hv]

theorem handle_at_protected (now : Int) (w : World) (auth : AuthHeader) :
    handle_at now w ⟨.GET, "/api/v1/protected", auth⟩ =
      protected_route_at now w.secret auth := rfl

theorem protected_at_of_ok (now : Int) (secret : String) (auth : AuthHeader)
    (c : Claims) (h : verify_jwt_at now secret auth = .ok c) :
    protected_route_at now secret auth =
      ⟨200, .json [("message", "Access granted to protected API route")]⟩ := by
  simp [protected_route_at, h]

theorem protected_of_err (secret : String) (auth : AuthHeader) (e : Response)
    (h : verify_jwt secret auth = .error e) :
    protected_route secret auth = e := by
  simp [protected_route, h]

theorem protected_of_ok (secret : String) (auth : AuthHeader) (c : Claims)
    (h : verify_jwt secret auth = .ok c) :
    protected_route secret auth =
      ⟨200, .json [("message", "Access granted to protected API route")]⟩ := by
  simp [protected_route, h]

theorem hello_of_err (secret : String) (auth : AuthHeader) (e : Response)
    (h : verify_jwt secret auth = .error e) :
    run_hello_world secret auth = e := by
  simp [run_hello_world, h]

theorem hello_of_ok (secret : String) (auth : AuthHeader) (c : Claims)
    (h : verify_jwt secret auth = .ok c) :
    run_hello_world secret auth = ⟨200, .json hello_world⟩ := by
  simp [run_hello_world, h, hello_world_eval]

/-- C1 (counterexample): the claim says a request with a missing
`Authorization` header gets status 401 with the fixed invalid-token body;
in the code `HTTPBearer` rejects such a request with status 403 and body
`{"detail": "Not authenticated"}` before `verify_jwt` runs, so the claim
fails on the missing-header input. -/
theorem C1_counterexample :
    handle sampleWorld ⟨.GET, "/api/v1/protected", .missing⟩ = resp403 ∧
    handle sampleWorld ⟨.POST, "/api/v1/hello", .missing⟩ = resp403 ∧
    resp403 ≠ resp401 :=
  ⟨rfl, rfl, by decide⟩

/-- C1 (amended): a bearer credential that is a malformed string, or a
token signed with a secret different from the configured one, makes both
protected endpoints answer 401 with `{"detail": "Invalid authentication
token"}`; a request with no `Authorization` header is instead answered 403
with `{"detail": "Not authenticated"}`. -/
theorem C1_corrected (w : World) (auth : AuthHeader)
    (h : (∃ s, auth = .bearer (.malformed s)) ∨
      ∃ s2 alg claims, s2 ≠ w.secret ∧
        auth = .bearer (.token (signToken s2 alg claims))) :
    (handle w ⟨.GET, "/api/v1/protected", auth⟩ = resp401 ∧
      handle w ⟨.POST, "/api/v1/hello", auth⟩ = resp401) ∧
    handle w ⟨.GET, "/api/v1/protected", .missing⟩ = resp403 ∧
    handle w ⟨.POST, "/api/v1/hello", .missing⟩ = resp403 := by
  have hv : verify_jwt w.secret auth = .error resp401 := by
    rcases h with ⟨s, rfl⟩ | ⟨s2, alg, claims, hne, rfl⟩
    · exact verify_jwt_malformed _ _
    · exact verify_jwt_wrong_secret _ _ _ _ hne
  refine ⟨⟨?_, ?_⟩, ?_, ?_⟩
  · rw [handle_protected]
    exact protected_of_err _ _ _ hv
  · rw [handle_hello]
    exact hello_of_err _ _ _ hv
  · rw [handle_protected]
    exact protected_of_err _ _ _ (verify_jwt_missing _)
  · rw [handle_hello]
    exact hello_of_err _ _ _ (verify_jwt_missing _)

/-- C1 (witness): the amended statement instantiated at a malformed
credential. -/
theorem C1_witness :
    (handle sampleWorld ⟨.GET, "/api/v1/protected",
        .bearer (.malformed "not-a-jwt")⟩ = resp401 ∧
      handle sampleWorld ⟨.POST, "/api/v1/hello",
        .bearer (.malformed "not-a-jwt")⟩ = resp401) ∧
    handle sampleWorld ⟨.GET, "/api/v1/protected", .missing⟩ = resp403 ∧
    handle sampleWorld ⟨.POST, "/api/v1/hello", .missing⟩ = resp403 :=
  C1_corrected sampleWorld _ (Or.inl ⟨"not-a-jwt", rfl⟩)

/-- C2 (counterexample): the claim says every token signed with the
configured secret under HS256 gets a 200 from the protected endpoint; a
correctly signed token whose claims carry `exp: "1"` is rejected by
`jwt.decode`'s default expiry validation (an epoch-seconds clock far past
1), so the code answers 401, not 200. -/
theorem C2_counterexample :
    handle_at 1700000000 sampleWorld ⟨.GET, "/api/v1/protected",
        .bearer (.token (signToken "server-secret" .HS256 [("exp", "1")]))⟩ =
      resp401 ∧
    resp401 ≠ ⟨200, .json [("message", "Access granted to protected API route")]⟩ :=
  ⟨rfl, by decide⟩

/-- C2 (amended): every token signed with the configured secret under
HS256 whose claim set carries none of the registered claims that
`jwt.decode` validates by default (`iat`, `nbf`, `exp`, `aud`, `at_hash`)
makes `GET /api/v1/protected` answer 200 with the fixed access-granted
body, at every wall-clock instant. -/
theorem C2_corrected (now : Int) (w : World) (claims : Claims)
    (h : ∀ kv ∈ claims,
      kv.1 ∉ (["iat", "nbf", "exp", "aud", "at_hash"] : List String)) :
    handle_at now w ⟨.GET, "/api/v1/protected",
        .bearer (.token (signToken w.secret .HS256 claims))⟩ =
      ⟨200, .json [("message", "Access granted to protected API route")]⟩ := by
  rw [handle_at_protected]
  exact protected_at_of_ok _ _ _ _
    (verify_jwt_at_ok now w.secret claims (claimsValid_of_no_registered now claims h))

/-- C2 (witness): the amended statement at a concrete signed token whose
only claim is a subject. -/
theorem C2_witness :
    handle_at 1700000000 sampleWorld ⟨.GET, "/api/v1/protected",
        .bearer (.token (signToken "server-secret" .HS256 [("sub", "alice")]))⟩ =
      ⟨200, .json [("message", "Access granted to protected API route")]⟩ :=
  C2_corrected 1700000000 sampleWorld [("sub", "alice")] (by decide)

/-- C3 (counterexample): the claim says the root body is the template with
the key substituted at the one marker location and everything else
unchanged, for every template; on a template containing the marker twice
the code substitutes both occurrences, so the body is not a
single-location substitution of the template. -/
theorem C3_counterexample :
    handle ⟨"server-secret", "KEY", tmplTwo, fun _ => none⟩ ⟨.GET, "/", .missing⟩ =
      ⟨200, .html (keyRep "KEY" ++ (' ' :: keyRep "KEY"))⟩ ∧
    rootBody "KEY" tmplTwo ∉ singleSubstOutputs "KEY" tmplTwo :=
  ⟨rfl, by decide⟩

/-- C3 (amended): the root body is the template with every occurrence of
the marker `content=""` replaced by `content="<ANON_KEY>"` (the semantics
of the source's literal `str.replace`); in particular, when the marker
occurs exactly once — no occurrence starts before it and none occurs after
it — the body is that single substitution with every other part of the
template unchanged, as the claim states. -/
theorem C3_corrected (w : World) (auth : AuthHeader) (p s : List Char)
    (hw : w.indexHtml = p ++ (marker ++ s))
    (h1 : ∀ i, i < p.length →
      marker.isPrefixOf ((p ++ (marker ++ s)).drop i) = false)
    (h2 : ∀ i, i ≤ s.length → marker.isPrefixOf (s.drop i) = false) :
    handle w ⟨.GET, "/", auth⟩ =
      ⟨200, .html (p ++ (keyRep w.anonKey ++ s))⟩ ∧
    (p ++ (keyRep w.anonKey ++ s)) ∈ singleSubstOutputs w.anonKey w.indexHtml := by
  have hbody : rootBody w.anonKey w.indexHtml = p ++ (keyRep w.anonKey ++ s) := by
    rw [hw]
    exact replaceAll_single marker (keyRep w.anonKey) p s (by decide) h1 h2
  constructor
  · rw [handle_root]
    simp [root, hbody]
  · rw [mem_singleSubstOutputs, hw]
    exact ⟨p, s, rfl, rfl⟩

/-- C3 (witness): the amended statement instantiated on a template that
holds the marker exactly once, between one leading and one trailing
character. -/
theorem C3_witness :
    handle ⟨"server-secret", "KEY", 'a' :: (marker ++ [ 'b' ]), fun _ => none⟩
        ⟨.GET, "/", .missing⟩ =
      ⟨200, .html ([ 'a' ] ++ (keyRep "KEY" ++ [ 'b' ]))⟩ ∧
    ([ 'a' ] ++ (keyRep "KEY" ++ [ 'b' ])) ∈
      singleSubstOutputs "KEY" ('a' :: (marker ++ [ 'b' ])) :=
  C3_corrected ⟨"server-secret", "KEY", 'a' :: (marker ++ [ 'b' ]), fun _ => none⟩
    .missing [ 'a' ] [ 'b' ] rfl (by decide) (by decide)

/-- C4: if either `JWT_SECRET` or `SUPABASE_ANON_KEY` is absent or empty,
module import raises and no request is ever answered; if both are present
and non-empty, startup yields a configuration and every request is
dispatched with it. -/
theorem C4_startup (env : List (String × String)) :
    ((falsy (getenv env "JWT_SECRET") = true ∨
        falsy (getenv env "SUPABASE_ANON_KEY") = true) →
      (∃ msg, loadConfig env = .error msg) ∧
        ∀ tmpl files r, serve env tmpl files r = none) ∧
    (falsy (getenv env "JWT_SECRET") = false →
      falsy (getenv env "SUPABASE_ANON_KEY") = false →
      ∃ cfg, loadConfig env = .ok cfg ∧
        ∀ tmpl files r, serve env tmpl files r =
          some (handle ⟨cfg.jwtSecret, cfg.anonKey, tmpl, files⟩ r)) := by
  constructor
  · intro h
    have herr : ∃ msg, loadConfig env = .error msg := by
      by_cases hj : falsy (getenv env "JWT_SECRET") = true
      · exact ⟨"JWT_SECRET environment variable is required",
          by simp [loadConfig, hj]⟩
      · have hj2 : falsy (getenv env "JWT_SECRET") = false := by
          simpa using hj
        have ha : falsy (getenv env "SUPABASE_ANON_KEY") = true := by
          rcases h with h | h
          · exact absurd h hj
          · exact h
        exact ⟨"SUPABASE_ANON_KEY environment variable is required",
          by simp [loadConfig, hj2, ha]⟩
    obtain ⟨msg, hm⟩ := herr
    exact ⟨⟨msg, hm⟩, fun tmpl files r => by simp [serve, hm]⟩
  · intro hj ha
    refine ⟨⟨(getenv env "JWT_SECRET").getD "",
      (getenv env "SUPABASE_ANON_KEY").getD ""⟩, ?_, ?_⟩
    · simp [loadConfig, hj, ha]
    · intro tmpl files r
      simp [serve, loadConfig, hj, ha]

/-- C4 (witness): with an empty environment no request is answered; with
both variables set the health request is answered. -/
theorem C4_witness :
    serve [] [] (fun _ => none) ⟨Method.GET, "/api/v1/health", .missing⟩ = none ∧
    serve [("JWT_SECRET", "s"), ("SUPABASE_ANON_KEY", "k")] [] (fun _ => none)
        ⟨Method.GET, "/api/v1/health", .missing⟩ = some health_check := by
  constructor
  · exact ((C4_startup []).1 (Or.inl rfl)).2 [] (fun _ => none) _
  · obtain ⟨cfg, _, hserve⟩ :=
      (C4_startup [("JWT_SECRET", "s"), ("SUPABASE_ANON_KEY", "k")]).2 rfl rfl
    rw [hserve [] (fun _ => none) ⟨Method.GET, "/api/v1/health", .missing⟩,
      handle_health]

/-- C5: any request to `POST /api/v1/hello` whose credential verifies
returns 200 with exactly `{"message": "Hello, World!", "status":
"success"}`. -/
theorem C5_hello_valid_token (w : World) (auth : AuthHeader) (c : Claims)
    (h : verify_jwt w.secret auth = .ok c) :
    handle w ⟨.POST, "/api/v1/hello", auth⟩ =
      ⟨200, .json [("message", "Hello, World!"), ("status", "success")]⟩ := by
  rw [handle_hello, hello_of_ok _ _ _ h]
  rfl

/-- C5 (witness): the hello endpoint on a concrete correctly signed
token. -/
theorem C5_witness :
    handle sampleWorld ⟨.POST, "/api/v1/hello",
        .bearer (.token (signToken "server-secret" .HS256 []))⟩ =
      ⟨200, .json [("message", "Hello, World!"), ("status", "success")]⟩ :=
  C5_hello_valid_token sampleWorld _ [] rfl

/-- C6: the verifier yields a claim set only from a structurally
well-formed token whose header algorithm is HS256 and whose signature is
the MAC made with the configured secret over that token's own header and
claims; a token signed with the right secret under a different algorithm,
or one whose signature does not validate, always raises. -/
theorem C6_verifier_sound :
    (∀ (secret : String) (cred : Cred) (claims : Claims),
      jwtDecode cred secret [Alg.HS256] = .ok claims →
        ∃ t, cred = .token t ∧ t.alg = .HS256 ∧ claims = t.claims ∧
          t.sig = ⟨secret, .HS256, t.claims⟩) ∧
    (∀ (secret : String) (claims : Claims),
      jwtDecode (.token (signToken secret .HS512 claims)) secret [Alg.HS256] =
        .error .invalid) ∧
    (∀ (secret : String) (t : Token), t.sig ≠ ⟨secret, t.alg, t.claims⟩ →
      jwtDecode (.token t) secret [Alg.HS256] = .error .invalid) := by
  refine ⟨?_, ?_, ?_⟩
  · intro secret cred claims h
    cases cred with
    | malformed s => simp [jwtDecode] at h
    | token t =>
        by_cases hc : t.alg ∈ [Alg.HS256] ∧ t.sig = ⟨secret, t.alg, t.claims⟩
        · rw [jwtDecode, if_pos hc] at h
          obtain ⟨halg, hsig⟩ := hc
          have halg2 : t.alg = .HS256 := by simpa using halg
          have hclaims : claims = t.claims := by
            cases h
            rfl
          exact ⟨t, rfl, halg2, hclaims, by rw [← halg2]; exact hsig⟩
        · rw [jwtDecode, if_neg hc] at h
          cases h
  · intro secret claims
    simp [jwtDecode, signToken]
  · intro secret t h
    simp [jwtDecode, h]

/-- C6 (witness): the sound direction at a concrete decoded token, and the
invalid-signature direction at a token carrying a foreign tag. -/
theorem C6_witness :
    (∃ t, Cred.token (signToken "s" .HS256 [("sub", "alice")]) = .token t ∧
      t.alg = .HS256 ∧ [("sub", "alice")] = t.claims ∧
      t.sig = ⟨"s", .HS256, t.claims⟩) ∧
    jwtDecode (.token ⟨.HS256, [], ⟨"other", .HS256, []⟩⟩) "s" [Alg.HS256] =
      .error .invalid :=
  ⟨C6_verifier_sound.1 "s" _ _ rfl,
    C6_verifier_sound.2.2 "s" ⟨.HS256, [], ⟨"other", .HS256, []⟩⟩ (by decide)⟩

/-- C7: the health endpoint answers 200 `{"status": "healthy"}` for every
request, with or without an `Authorization` header. -/
theorem C7_health_endpoint (w : World) (auth : AuthHeader) :
    handle w ⟨.GET, "/api/v1/health", auth⟩ =
      ⟨200, .json [("status", "healthy")]⟩ := rfl

/-- C8: evaluating `hello_world()` returns normally (its body is one
`return` of a literal), so the `except` branch of the hello handler is
dead: every response of the handler is the 200 hello body, the 401, or the
403 — never the 500 error response. -/
theorem C8_hello_exception_dead :
    hello_world_eval = PyResult.ok hello_world ∧
    ∀ (secret : String) (auth : AuthHeader),
      run_hello_world secret auth = ⟨200, .json hello_world⟩ ∨
      run_hello_world secret auth = resp401 ∨
      run_hello_world secret auth = resp403 := by
  refine ⟨rfl, fun secret auth => ?_⟩
  rcases verify_jwt_cases secret auth with ⟨c, h⟩ | h | h
  · exact Or.inl (hello_of_ok _ _ _ h)
  · exact Or.inr (Or.inl (hello_of_err _ _ _ h))
  · exact Or.inr (Or.inr (hello_of_err _ _ _ h))

/-- C9 (counterexample): the claim says any two calls of the verifier on
the same credential return equal results; `jwt.decode`'s default expiry
validation reads the wall clock, so the same correctly signed token with
`exp: "1"` verifies at instant 0 and is rejected at instant 2 — the two
calls differ. -/
theorem C9_counterexample :
    (verify_jwt_call_at 0 sampleWorld
      (.bearer (.token (signToken "server-secret" .HS256 [("exp", "1")])))).1 =
        .ok [("exp", "1")] ∧
    (verify_jwt_call_at 2 sampleWorld
      (.bearer (.token (signToken "server-secret" .HS256 [("exp", "1")])))).1 =
        .error resp401 ∧
    (Except.ok [("exp", "1")] : Except Response Claims) ≠ .error resp401 :=
  ⟨rfl, rfl, fun h => Except.noConfusion h⟩

/-- C9 (amended): token verification given the explicit process state and
wall clock: a call leaves the state exactly as it found it, and a later
call on the same credential at the same instant — even after any
intervening verification — returns the same result; the result depends on
the credential, the secret and the wall clock alone, so calls at different
instants can differ on a token carrying `exp` or `nbf` claims. -/
theorem C9_corrected (w : World) (auth auth2 : AuthHeader) (now now2 : Int) :
    (verify_jwt_call_at now w auth).2 = w ∧
    (verify_jwt_call_at now ((verify_jwt_call_at now2 w auth2).2) auth).1 =
      (verify_jwt_call_at now w auth).1 :=
  ⟨rfl, rfl⟩

/-- C10: the protected and hello endpoints ignore the decoded claim set:
any two successfully verifying credentials receive identical responses
from each endpoint. -/
theorem C10_claims_noninterference (w : World) (a1 a2 : AuthHeader)
    (c1 c2 : Claims) (h1 : verify_jwt w.secret a1 = .ok c1)
    (h2 : verify_jwt w.secret a2 = .ok c2) :
    handle w ⟨.GET, "/api/v1/protected", a1⟩ =
      handle w ⟨.GET, "/api/v1/protected", a2⟩ ∧
    handle w ⟨.POST, "/api/v1/hello", a1⟩ =
      handle w ⟨.POST, "/api/v1/hello", a2⟩ := by
  constructor
  · rw [handle_protected, handle_protected,
      protected_of_ok _ _ _ h1, protected_of_ok _ _ _ h2]
  · rw [handle_hello, handle_hello, hello_of_ok _ _ _ h1, hello_of_ok _ _ _ h2]

/-- C10 (witness): two tokens with different claim sets, both signed with
the configured secret, get identical responses. -/
theorem C10_witness :
    handle sampleWorld ⟨.GET, "/api/v1/protected",
        .bearer (.token (signToken "server-secret" .HS256 [("sub", "alice")]))⟩ =
      handle sampleWorld ⟨.GET, "/api/v1/protected",
        .bearer (.token (signToken "server-secret" .HS256 [("sub", "bob")]))⟩ ∧
    handle sampleWorld ⟨.POST, "/api/v1/hello",
        .bearer (.token (signToken "server-secret" .HS256 [("sub", "alice")]))⟩ =
      handle sampleWorld ⟨.POST, "/api/v1/hello",
        .bearer (.token (signToken "server-secret" .HS256 [("sub", "bob")]))⟩ :=
  C10_claims_noninterference sampleWorld _ _ _ _ rfl rfl

end SupaFast
